import Mathlib

/-!
Verification of the FAT date time codec (`dfdatetime/fat_date_time.py`).

The file embeds `FATDateTime` and its operations.  Helpers the class calls
that live in the external `interface` and `definitions` modules are modelled
from the specification and marked `Modelled from the spec:` in their doc
comments.
-/

deriving instance DecidableEq for Except

namespace FatSpec

/-- Modelled from the spec: the Gregorian leap-year rule used by the external
calendar helpers (`DaysInYear`, `DaysInMonth`). -/
def isLeapYear (year : Nat) : Bool :=
  year % 4 == 0 && (year % 100 != 0 || year % 400 == 0)

/-- Modelled from the spec: the lengths of the twelve Gregorian months, for a
leap or a non-leap year. -/
def daysPerMonthList (leap : Bool) : List Nat :=
  [31, if leap then 29 else 28, 31, 30, 31, 30, 31, 31, 30, 31, 30, 31]

/-- Modelled from the spec: total variant of `DaysInMonth(year, month)` for
a month already known to lie in [1, 12]. -/
def daysInMonthT (year month : Nat) : Nat :=
  (daysPerMonthList (isLeapYear year)).getD (month - 1) 0

/-- Modelled from the spec: `DaysInMonth(year, month)` as called by the decode
path (`interface._GetDaysPerMonth`).  The spec leaves a month outside [1, 12]
as an open question; following the error taxonomy it is modelled as a range
failure. -/
def GetDaysPerMonth (year month : Nat) : Except String Nat :=
  if month < 1 ∨ month > 12 then .error "Month value out of bounds."
  else .ok (daysInMonthT year month)

/-- Modelled from the spec: sum of the lengths of months `1..m` of `year`
(so `monthPrefix year (m-1)` is the number of days before month `m`). -/
def monthPrefix (year : Nat) : Nat → Nat
  | 0 => 0
  | m + 1 => monthPrefix year m + daysInMonthT year (m + 1)

/-- Modelled from the spec: `DayOfYear(year, month, day)`
(`interface._GetDayOfYear`): the day of month plus the lengths of the
preceding months. -/
def GetDayOfYear (year month day_of_month : Nat) : Nat :=
  day_of_month + monthPrefix year (month - 1)

/-- Modelled from the spec: `DaysInYear(year)` (`interface._GetNumberOfDaysInYear`),
365 or 366 by the Gregorian leap rule. -/
def GetNumberOfDaysInYear (year : Nat) : Nat :=
  if isLeapYear year then 366 else 365

/-- Sum of `GetNumberOfDaysInYear` over the `n` consecutive years
`base, base+1, ..., base+n-1`. -/
def yearsDaysSum (base : Nat) : Nat → Nat
  | 0 => 0
  | n + 1 => yearsDaysSum base n + GetNumberOfDaysInYear (base + n)

/-- Modelled from the spec: `definitions.SECONDS_PER_DAY`. -/
def SECONDS_PER_DAY : Nat := 86400

/-- Modelled from the spec: `definitions.MICROSECONDS_PER_SECOND`. -/
def MICROSECONDS_PER_SECOND : Int := 1000000

/-- The difference between Jan 1, 1980 and Jan 1, 1970 in seconds
(`FATDateTime._FAT_DATE_TO_POSIX_BASE`). -/
def FAT_DATE_TO_POSIX_BASE : Int := 315532800

/-- Embedding of `FATDateTime._GetNumberOfSeconds`: decodes a packed FAT date
time value into the number of seconds since January 1, 1980 00:00:00, or a
range error.  The loop over `range(0, year)` adds `_GetNumberOfDaysInYear`
of each *year offset* `0, ..., year-1`, exactly as the source does. -/
def GetNumberOfSeconds (fat_date_time : Nat) : Except String Int :=
  let day_of_month := fat_date_time &&& 0x1f
  let month := (fat_date_time >>> 5) &&& 0x0f
  let year := (fat_date_time >>> 9) &&& 0x7f
  match GetDaysPerMonth year month with
  | .error e => .error e
  | .ok days_per_month =>
    if day_of_month < 1 ∨ day_of_month > days_per_month then
      .error "Day of month value out of bounds."
    else
      let number_of_days : Int :=
        (GetDayOfYear (1980 + year) month day_of_month : Int) - 1
          + (yearsDaysSum 0 year : Int)
      let t := fat_date_time >>> 16
      let seconds := (t &&& 0x1f) * 2
      let minutes := (t >>> 5) &&& 0x3f
      let hours := (t >>> 11) &&& 0x1f
      if 24 ≤ hours then .error "Hours value out of bounds."
      else if 60 ≤ minutes then .error "Minutes value out of bounds."
      else if 60 ≤ seconds then .error "Seconds value out of bounds."
      else
        .ok (((hours * 60 + minutes) * 60 + seconds : Nat)
          + number_of_days * (SECONDS_PER_DAY : Int))

/-- The state of a `FATDateTime` instance: the internal
`_number_of_seconds` and the `is_local_time` attribute. -/
structure FATDateTime where
  number_of_seconds : Option Int
  is_local_time : Bool
deriving DecidableEq, Repr

/-- Embedding of `FATDateTime.__init__` called with `fat_date_time=None`:
an unset instance.  (Modelled from the spec: `is_local_time` defaults to
false in the base-class initializer.) -/
def FATDateTime.initUnset : FATDateTime :=
  { number_of_seconds := none, is_local_time := false }

/-- Embedding of `FATDateTime.__init__` called with a packed value: decodes
it, or propagates the range error. -/
def FATDateTime.initPacked (fat_date_time : Nat) : Except String FATDateTime :=
  match GetNumberOfSeconds fat_date_time with
  | .error e => .error e
  | .ok s => .ok { number_of_seconds := some s, is_local_time := false }

/-- Embedding of `FATDateTime.CopyToStatTimeTuple`: the POSIX timestamp and
the (always absent) 100ns remainder, or the `(None, None)` sentinel. -/
def FATDateTime.CopyToStatTimeTuple (dt : FATDateTime) :
    Option Int × Option Int :=
  match dt.number_of_seconds with
  | none => (none, none)
  | some s =>
      if s < 0 then (none, none)
      else (some (s + FAT_DATE_TO_POSIX_BASE), none)

/-- Embedding of `FATDateTime.GetPlasoTimestamp`: the POSIX timestamp in
microseconds, or `None`. -/
def FATDateTime.GetPlasoTimestamp (dt : FATDateTime) : Option Int :=
  match dt.number_of_seconds with
  | none => none
  | some s =>
      if s < 0 then none
      else some (MICROSECONDS_PER_SECOND * (s + FAT_DATE_TO_POSIX_BASE))

/-- Modelled from the spec: `interface._GetTimeValues`, decomposing a
non-negative count of elapsed seconds into whole days, hours, minutes and
seconds by integer division. -/
def GetTimeValues (s : Nat) : Nat × Nat × Nat × Nat :=
  (s / 86400, s % 86400 / 3600, s % 3600 / 60, s % 60)

/-- Modelled from the spec: the year-finding half of the inverse day-of-year
mapping.  Starting at `year`, repeatedly subtracts the length of the current
year while `days` reaches past it.  The fuel bounds the search; 128 steps
cover the format's whole representable window. -/
def yearFromDays : Nat → Nat → Nat → Nat × Nat
  | 0, year, days => (year, days)
  | fuel + 1, year, days =>
      if days < GetNumberOfDaysInYear year then (year, days)
      else yearFromDays fuel (year + 1) (days - GetNumberOfDaysInYear year)

/-- Modelled from the spec: the month-finding half of the inverse day-of-year
mapping.  Starting at `month`, repeatedly subtracts the length of the current
month of `year` while the zero-based day index reaches past it; returns the
month together with the one-based day of month. -/
def monthFromDayIndex (year : Nat) : Nat → Nat → Nat → Nat × Nat
  | 0, month, dayIdx => (month, dayIdx + 1)
  | fuel + 1, month, dayIdx =>
      if dayIdx < daysInMonthT year month then (month, dayIdx + 1)
      else monthFromDayIndex year fuel (month + 1) (dayIdx - daysInMonthT year month)

/-- Modelled from the spec: `interface._GetDateValuesWithEpoch` with the FAT
epoch 1980-01-01: maps a count of whole days since the epoch back to a
`(year, month, day_of_month)` triple. -/
def GetDateValuesWithEpoch (days : Nat) : Nat × Nat × Nat :=
  let yd := yearFromDays 128 1980 days
  let md := monthFromDayIndex yd.1 11 1 yd.2
  (yd.1, md.1, md.2)

/-- The decimal digit character for `n < 10`. -/
def dChar (n : Nat) : Char := Char.ofNat (48 + n)

/-- Two-digit zero-padded decimal rendering, as Python `'{0:02d}'.format`
produces for values below 100. -/
def pad2 (n : Nat) : List Char := [dChar (n / 10 % 10), dChar (n % 10)]

/-- Four-digit zero-padded decimal rendering, as Python `'{0:04d}'.format`
produces for values below 10000. -/
def pad4 (n : Nat) : List Char :=
  [dChar (n / 1000 % 10), dChar (n / 100 % 10), dChar (n / 10 % 10), dChar (n % 10)]

/-- The `YYYY-MM-DD hh:mm:ss` rendering used by `CopyToDateTimeString`. -/
def formatDateTime (year month day_of_month hours minutes seconds : Nat) : String :=
  String.mk (pad4 year ++ '-' :: pad2 month ++ '-' :: pad2 day_of_month
    ++ ' ' :: pad2 hours ++ ':' :: pad2 minutes ++ ':' :: pad2 seconds)

/-- Embedding of `FATDateTime.CopyToDateTimeString`: renders the internal
elapsed seconds as `YYYY-MM-DD hh:mm:ss`, or `None` when unset. -/
def FATDateTime.CopyToDateTimeString (dt : FATDateTime) : Option String :=
  match dt.number_of_seconds with
  | none => none
  | some s =>
      let tv := GetTimeValues s.toNat
      let ymd := GetDateValuesWithEpoch tv.1
      some (formatDateTime ymd.1 ymd.2.1 ymd.2.2 tv.2.1 tv.2.2.1 tv.2.2.2)

/-- Embedding of `FATDateTime.GetDate`: the `(year, month, day_of_month)`
triple, or the `(None, None, None)` sentinel when unset (modelled from the
spec: a negative day count makes the internal mapping raise, which `GetDate`
swallows into the sentinel). -/
def FATDateTime.GetDate (dt : FATDateTime) :
    Option Nat × Option Nat × Option Nat :=
  match dt.number_of_seconds with
  | none => (none, none, none)
  | some s =>
      if s < 0 then (none, none, none)
      else
        let tv := GetTimeValues s.toNat
        let ymd := GetDateValuesWithEpoch tv.1
        (some ymd.1, some ymd.2.1, some ymd.2.2)

/-- The parsed field map produced by the external date time string parser
(`interface._CopyDateTimeFromString`); absent fields are `none` and read out
with default 0, as the Python `dict.get(key, 0)` calls do. -/
structure DateTimeValues where
  year : Option Nat
  month : Option Nat
  day_of_month : Option Nat
  hours : Option Nat
  minutes : Option Nat
  seconds : Option Nat
deriving DecidableEq, Repr

/-- The numeric value of a decimal digit character, if it is one. -/
def digitVal (c : Char) : Option Nat :=
  if c.isDigit then some (c.toNat - 48) else none

/-- Parses two decimal digit characters into a number below 100. -/
def parse2 (a b : Char) : Option Nat := do
  pure (10 * (← digitVal a) + (← digitVal b))

/-- Parses four decimal digit characters into a number below 10000. -/
def parse4 (a b c d : Char) : Option Nat := do
  pure (1000 * (← digitVal a) + 100 * (← digitVal b)
    + 10 * (← digitVal c) + (← digitVal d))

/-- Modelled from the spec: `interface._CopyDateTimeFromString` restricted to
the canonical patterns `YYYY-MM-DD` (time fields absent) and
`YYYY-MM-DD hh:mm:ss` (fractional seconds and time-zone offsets are outside
the claims); validates the calendar ranges of the parsed fields and fails on
malformed input. -/
def CopyDateTimeFromString (time_string : String) :
    Except String DateTimeValues :=
  match time_string.data with
  | [y1, y2, y3, y4, '-', m1, m2, '-', d1, d2] =>
      match parse4 y1 y2 y3 y4, parse2 m1 m2, parse2 d1 d2 with
      | some year, some month, some day =>
          if 1 ≤ month ∧ month ≤ 12 ∧ 1 ≤ day ∧ day ≤ daysInMonthT year month then
            .ok ⟨some year, some month, some day, none, none, none⟩
          else .error "Invalid date string."
      | _, _, _ => .error "Invalid date string."
  | [y1, y2, y3, y4, '-', m1, m2, '-', d1, d2, ' ',
     h1, h2, ':', i1, i2, ':', s1, s2] =>
      match parse4 y1 y2 y3 y4, parse2 m1 m2, parse2 d1 d2,
          parse2 h1 h2, parse2 i1 i2, parse2 s1 s2 with
      | some year, some month, some day, some hours, some minutes, some seconds =>
          if 1 ≤ month ∧ month ≤ 12 ∧ 1 ≤ day ∧ day ≤ daysInMonthT year month
              ∧ hours < 24 ∧ minutes < 60 ∧ seconds < 60 then
            .ok ⟨some year, some month, some day,
              some hours, some minutes, some seconds⟩
          else .error "Invalid date time string."
      | _, _, _, _, _, _ => .error "Invalid date time string."
  | _ => .error "Unsupported date time string."

/-- Modelled from the spec: `interface._GetNumberOfSecondsFromElements`
(`SecondsFromCalendarElements`): seconds elapsed since the POSIX epoch,
computed as the proleptic Gregorian day count times 86400 plus the time of
day, for years at or after 1970. -/
def GetNumberOfSecondsFromElements
    (year month day_of_month hours minutes seconds : Nat) : Nat :=
  (yearsDaysSum 1970 (year - 1970) + GetDayOfYear year month day_of_month - 1)
      * SECONDS_PER_DAY
    + (hours * 60 + minutes) * 60 + seconds

/-- Decimal digit characters of a positive number, most significant first;
the fuel dominates the number of digits. -/
def natDigits : Nat → Nat → List Char
  | 0, _ => []
  | _ + 1, 0 => []
  | fuel + 1, n => natDigits fuel (n / 10) ++ [dChar (n % 10)]

/-- Decimal rendering of a natural number, as Python `str` produces. -/
def natRepr (n : Nat) : String :=
  if n = 0 then "0" else String.mk (natDigits n n)

/-- Embedding of `FATDateTime.CopyFromDateTimeString`: parses the string,
rejects years outside the 128-year window naming the year, and otherwise
overwrites the internal state with the elapsed seconds relative to the FAT
epoch and sets `is_local_time` to false. -/
def FATDateTime.CopyFromDateTimeString (dt : FATDateTime)
    (time_string : String) : Except String FATDateTime :=
  match CopyDateTimeFromString time_string with
  | .error e => .error e
  | .ok dtv =>
      if dtv.year.getD 0 < 1980 ∨ dtv.year.getD 0 > 1980 + 0x7f then
        .error ("Year value not supported: " ++ natRepr (dtv.year.getD 0) ++ ".")
      else
        .ok { dt with
          number_of_seconds := some
            ((GetNumberOfSecondsFromElements (dtv.year.getD 0)
                (dtv.month.getD 0) (dtv.day_of_month.getD 0) (dtv.hours.getD 0)
                (dtv.minutes.getD 0) (dtv.seconds.getD 0) : Int)
              - FAT_DATE_TO_POSIX_BASE),
          is_local_time := false }

/-- The day-of-month bitfield of a packed FAT date time value. -/
def fatDay (v : Nat) : Nat := v &&& 0x1f

/-- The month bitfield of a packed FAT date time value. -/
def fatMonth (v : Nat) : Nat := (v >>> 5) &&& 0x0f

/-- The year-offset bitfield of a packed FAT date time value. -/
def fatYearOffset (v : Nat) : Nat := (v >>> 9) &&& 0x7f

/-- The doubled seconds bitfield of a packed FAT date time value. -/
def fatSecondsValue (v : Nat) : Nat := ((v >>> 16) &&& 0x1f) * 2

/-- The minutes bitfield of a packed FAT date time value. -/
def fatMinutes (v : Nat) : Nat := ((v >>> 16) >>> 5) &&& 0x3f

/-- The hours bitfield of a packed FAT date time value. -/
def fatHours (v : Nat) : Nat := ((v >>> 16) >>> 11) &&& 0x1f

/-- `GetNumberOfSeconds` written in terms of the named bitfield extractors. -/
theorem getNumberOfSeconds_eq (v : Nat) :
    GetNumberOfSeconds v =
      match GetDaysPerMonth (fatYearOffset v) (fatMonth v) with
      | .error e => .error e
      | .ok days_per_month =>
          if fatDay v < 1 ∨ fatDay v > days_per_month then
            .error "Day of month value out of bounds."
          else if 24 ≤ fatHours v then .error "Hours value out of bounds."
          else if 60 ≤ fatMinutes v then .error "Minutes value out of bounds."
          else if 60 ≤ fatSecondsValue v then .error "Seconds value out of bounds."
          else
            .ok (((fatHours v * 60 + fatMinutes v) * 60 + fatSecondsValue v : Nat)
              + ((GetDayOfYear (1980 + fatYearOffset v) (fatMonth v) (fatDay v) : Int)
                  - 1 + (yearsDaysSum 0 (fatYearOffset v) : Int))
                * (SECONDS_PER_DAY : Int)) := rfl

/-- Characterization of a successful decode: the field bounds that were
validated, and the value of the result. -/
theorem getNumberOfSeconds_ok (v : Nat) (s : Int)
    (h : GetNumberOfSeconds v = .ok s) :
    ∃ days_per_month,
      GetDaysPerMonth (fatYearOffset v) (fatMonth v) = .ok days_per_month
      ∧ 1 ≤ fatDay v ∧ fatDay v ≤ days_per_month
      ∧ fatHours v < 24 ∧ fatMinutes v < 60 ∧ fatSecondsValue v < 60
      ∧ s = ((fatHours v * 60 + fatMinutes v) * 60 + fatSecondsValue v : Nat)
          + ((GetDayOfYear (1980 + fatYearOffset v) (fatMonth v) (fatDay v) : Int)
              - 1 + (yearsDaysSum 0 (fatYearOffset v) : Int))
            * (SECONDS_PER_DAY : Int) := by
  rw [getNumberOfSeconds_eq] at h
  split at h
  · exact Except.noConfusion h
  · rename_i dpm hd
    split at h
    · exact Except.noConfusion h
    rename_i h1
    split at h
    · exact Except.noConfusion h
    rename_i h2
    split at h
    · exact Except.noConfusion h
    rename_i h3
    split at h
    · exact Except.noConfusion h
    rename_i h4
    exact ⟨dpm, hd, by omega, by omega, by omega, by omega, by omega,
      (Except.ok.inj h).symm⟩

/-- When the date part of the packed value passes validation, the decode is
decided entirely by the three time-of-day checks, in the source's order. -/
theorem getNumberOfSeconds_valid_date (v dpm : Nat)
    (hdpm : GetDaysPerMonth (fatYearOffset v) (fatMonth v) = .ok dpm)
    (hd1 : 1 ≤ fatDay v) (hd2 : fatDay v ≤ dpm) :
    GetNumberOfSeconds v =
      if 24 ≤ fatHours v then .error "Hours value out of bounds."
      else if 60 ≤ fatMinutes v then .error "Minutes value out of bounds."
      else if 60 ≤ fatSecondsValue v then .error "Seconds value out of bounds."
      else
        .ok (((fatHours v * 60 + fatMinutes v) * 60 + fatSecondsValue v : Nat)
          + ((GetDayOfYear (1980 + fatYearOffset v) (fatMonth v) (fatDay v) : Int)
              - 1 + (yearsDaysSum 0 (fatYearOffset v) : Int))
            * (SECONDS_PER_DAY : Int)) := by
  rw [getNumberOfSeconds_eq]
  simp only [hdpm]
  rw [if_neg (by omega : ¬(fatDay v < 1 ∨ fatDay v > dpm))]

/-- C7. For a packed value whose day-of-month field passed validation, the
decode raises an error naming one of the three time fields exactly when the
extracted hours exceed 23, the extracted minutes exceed 59, or the doubled
seconds field exceeds 59, and the error names the offending field: hours out
of range is reported as the hours error, in-range hours with minutes out of
range as the minutes error, in-range hours and minutes with the doubled
seconds out of range as the seconds error (the cascade at
`fat_date_time.py:93-100` checks in that order), and the decode succeeds
when all three are in range. -/
theorem fat_c7_time_validation (v dpm : Nat)
    (hdpm : GetDaysPerMonth (fatYearOffset v) (fatMonth v) = .ok dpm)
    (hd1 : 1 ≤ fatDay v) (hd2 : fatDay v ≤ dpm) :
    ((GetNumberOfSeconds v = .error "Hours value out of bounds."
        ∨ GetNumberOfSeconds v = .error "Minutes value out of bounds."
        ∨ GetNumberOfSeconds v = .error "Seconds value out of bounds.")
      ↔ (23 < fatHours v ∨ 59 < fatMinutes v ∨ 59 < fatSecondsValue v))
    ∧ (24 ≤ fatHours v →
        GetNumberOfSeconds v = .error "Hours value out of bounds.")
    ∧ (fatHours v < 24 → 60 ≤ fatMinutes v →
        GetNumberOfSeconds v = .error "Minutes value out of bounds.")
    ∧ (fatHours v < 24 → fatMinutes v < 60 → 60 ≤ fatSecondsValue v →
        GetNumberOfSeconds v = .error "Seconds value out of bounds.")
    ∧ (fatHours v < 24 → fatMinutes v < 60 → fatSecondsValue v < 60 →
        ∃ s, GetNumberOfSeconds v = .ok s) := by
  rw [getNumberOfSeconds_valid_date v dpm hdpm hd1 hd2]
  by_cases h1 : 24 ≤ fatHours v
  · rw [if_pos h1]
    exact ⟨⟨fun _ => Or.inl (by omega), fun _ => Or.inl rfl⟩,
      fun _ => rfl, fun hc _ => absurd h1 (by omega),
      fun hc _ _ => absurd h1 (by omega), fun hc => absurd h1 (by omega)⟩
  rw [if_neg h1]
  by_cases h2 : 60 ≤ fatMinutes v
  · rw [if_pos h2]
    refine ⟨⟨fun _ => Or.inr (Or.inl (by omega)),
      fun _ => Or.inr (Or.inl rfl)⟩, fun hc => absurd hc h1,
      fun _ _ => rfl, fun _ hm _ => absurd h2 (by omega),
      fun _ hc => absurd h2 (by omega)⟩
  rw [if_neg h2]
  by_cases h3 : 60 ≤ fatSecondsValue v
  · rw [if_pos h3]
    refine ⟨⟨fun _ => Or.inr (Or.inr (by omega)),
      fun _ => Or.inr (Or.inr rfl)⟩, fun hc => absurd hc h1,
      fun _ hm => absurd hm h2, fun _ _ _ => rfl,
      fun _ _ hc => absurd h3 (by omega)⟩
  rw [if_neg h3]
  refine ⟨⟨fun hc => ?_, fun hc => ?_⟩, fun hc => absurd hc h1,
    fun _ hm => absurd hm h2, fun _ _ hs => absurd hs h3,
    fun _ _ _ => ⟨_, rfl⟩⟩
  · rcases hc with hc | hc | hc <;> exact Except.noConfusion hc
  · omega

/-- C7 witness: with a valid date part (1980-01-01), packed 3355443233
(hours = 25) names the hours field, packed 125829153 (hours = 0,
minutes = 60) names the minutes field, and packed 1966113 (hours = 0,
minutes = 0, doubled seconds = 60) names the seconds field. -/
theorem fat_c7_witness :
    GetNumberOfSeconds 3355443233 = .error "Hours value out of bounds."
    ∧ GetNumberOfSeconds 125829153 = .error "Minutes value out of bounds."
    ∧ GetNumberOfSeconds 1966113 = .error "Seconds value out of bounds." :=
  ⟨(fat_c7_time_validation 3355443233 31 (by decide) (by decide)
      (by decide)).2.1 (by decide),
    (fat_c7_time_validation 125829153 31 (by decide) (by decide)
      (by decide)).2.2.1 (by decide) (by decide),
    (fat_c7_time_validation 1966113 31 (by decide) (by decide)
      (by decide)).2.2.2.1 (by decide) (by decide) (by decide)⟩

/-- C8. Every successful decode of a packed 32-bit value produces a
non-negative elapsed-seconds count. -/
theorem fat_c8_nonneg (v : Nat) (_hv : v < 4294967296) (dt : FATDateTime)
    (h : FATDateTime.initPacked v = .ok dt) (s : Int)
    (hs : dt.number_of_seconds = some s) : 0 ≤ s := by
  unfold FATDateTime.initPacked at h
  split at h
  · exact Except.noConfusion h
  rename_i s' hg
  cases Except.ok.inj h
  have hss : s' = s := Option.some.inj hs
  subst hss
  obtain ⟨dpm, -, hd1, -, -, -, -, hval⟩ := getNumberOfSeconds_ok v s' hg
  have hdoy : 1 ≤ GetDayOfYear (1980 + fatYearOffset v) (fatMonth v) (fatDay v) := by
    unfold GetDayOfYear; omega
  rw [hval]
  have hsec : (SECONDS_PER_DAY : Int) = 86400 := rfl
  rw [hsec]
  omega

set_option maxRecDepth 4096 in
/-- C8 witness: the largest representable packed value decodes to elapsed
seconds 4039286398, which is non-negative. -/
theorem fat_c8_witness : (0 : Int) ≤ 4039286398 :=
  fat_c8_nonneg 3212705695 (by decide) ⟨some 4039286398, false⟩ (by decide)
    4039286398 rfl

/-- C1. The whole-days count the decoder builds is claimed to equal
`DayOfYear(1980+year_offset, month, day_of_month) - 1` plus the sum of
`DaysInYear` over the calendar years `1980, ..., 1980+year_offset-1` with the
Gregorian leap rule applied to those calendar years.  The code instead feeds
the raw year offsets `0, ..., year_offset-1` to `DaysInYear`, so for the
packed value 51745 (2081-01-01 00:00:00, year offset 101) it counts 25 leap
years (offset 100 fails the offset-level century test) where the calendar
years 1980..2080 contain 26 (2080 is a Gregorian leap year): the decoder
returns 3187296000 seconds while the claimed formula yields 3187382400. -/
theorem fat_c1_divergence :
    GetNumberOfSeconds 51745 = .ok 3187296000
    ∧ ((GetDayOfYear 2081 1 1 - 1 + yearsDaysSum 1980 101) * SECONDS_PER_DAY : Int)
        = 3187382400
    ∧ (3187296000 : Int) ≠ 3187382400 := by
  refine ⟨by decide, by decide, by decide⟩

/-- C3 counterexample. The claim says `is_local_time` is true after a
successful `CopyFromDateTimeString`; the code sets it to false
(`fat_date_time.py` line 137). -/
theorem fat_c3_counterexample :
    (FATDateTime.initUnset.CopyFromDateTimeString
        "2010-06-15 12:30:45").map FATDateTime.is_local_time = .ok false
    ∧ (FATDateTime.initUnset.CopyFromDateTimeString
        "2010-06-15 12:30:45").map FATDateTime.is_local_time ≠ .ok true := by
  refine ⟨by decide, by decide⟩

/-- C3 (amended). After a successful `CopyFromDateTimeString`,
`is_local_time` is false; after construction from a raw packed value,
`is_local_time` is also false. -/
theorem fat_c3_local_time :
    (∀ (dt dt' : FATDateTime) (ts : String),
      dt.CopyFromDateTimeString ts = .ok dt' → dt'.is_local_time = false)
    ∧ (∀ (v : Nat) (dt : FATDateTime),
      FATDateTime.initPacked v = .ok dt → dt.is_local_time = false) := by
  constructor
  · intro dt dt' ts h
    unfold FATDateTime.CopyFromDateTimeString at h
    split at h
    · exact Except.noConfusion h
    split at h
    · exact Except.noConfusion h
    cases Except.ok.inj h
    rfl
  · intro v dt h
    unfold FATDateTime.initPacked at h
    split at h
    · exact Except.noConfusion h
    cases Except.ok.inj h
    rfl

/-- C3 witness: both parts of the amended statement applied at concrete
inputs. -/
theorem fat_c3_witness :
    (FATDateTime.mk (some 961072245) false).is_local_time = false
    ∧ (FATDateTime.mk (some 0) false).is_local_time = false :=
  ⟨fat_c3_local_time.1 FATDateTime.initUnset ⟨some 961072245, false⟩
      "2010-06-15 12:30:45" (by decide),
    fat_c3_local_time.2 33 ⟨some 0, false⟩ (by decide)⟩

/-- C4 counterexample. The claim says the second component of the stat time
tuple is the integer 0; the code returns the `None` sentinel there
(`fat_date_time.py` line 150). -/
theorem fat_c4_counterexample :
    FATDateTime.CopyToStatTimeTuple ⟨some 0, false⟩ = (some 315532800, none)
    ∧ FATDateTime.CopyToStatTimeTuple ⟨some 0, false⟩
        ≠ (some (0 + 315532800), some 0) := by
  refine ⟨by decide, by decide⟩

/-- C4 (amended). `CopyToStatTimeTuple` returns exactly the pair
`(elapsed_seconds + 315532800, None)` — with the second component the `None`
sentinel, not the integer 0 — whenever `elapsed_seconds` is set and
non-negative, and the no-value sentinel pair whenever `elapsed_seconds` is
unset or negative. -/
theorem fat_c4_stat_tuple (dt : FATDateTime) :
    (∀ s : Int, dt.number_of_seconds = some s → 0 ≤ s →
      dt.CopyToStatTimeTuple = (some (s + FAT_DATE_TO_POSIX_BASE), none))
    ∧ (dt.number_of_seconds = none → dt.CopyToStatTimeTuple = (none, none))
    ∧ (∀ s : Int, dt.number_of_seconds = some s → s < 0 →
      dt.CopyToStatTimeTuple = (none, none)) := by
  obtain ⟨ns, loc⟩ := dt
  refine ⟨?_, ?_, ?_⟩
  · intro s hs hnn
    cases hs
    simp [FATDateTime.CopyToStatTimeTuple, not_lt.mpr hnn]
  · intro hn
    cases hn
    rfl
  · intro s hs hneg
    cases hs
    simp [FATDateTime.CopyToStatTimeTuple, hneg]

/-- C4 witness: the amended statement applied to the decoded FAT epoch. -/
theorem fat_c4_witness :
    FATDateTime.CopyToStatTimeTuple ⟨some 0, false⟩
      = (some (0 + FAT_DATE_TO_POSIX_BASE), none) :=
  (fat_c4_stat_tuple ⟨some 0, false⟩).1 0 rfl (by decide)

/-- C5 counterexample. The claim says no public operation moves a Set
instance to a different Set value; calling `CopyFromDateTimeString` on the
instance decoded from the packed value 33 (elapsed 0) overwrites the value
with 315619200. -/
theorem fat_c5_counterexample :
    FATDateTime.initPacked 33 = .ok ⟨some 0, false⟩
    ∧ (FATDateTime.mk (some 0) false).CopyFromDateTimeString "1990-01-01"
        = .ok ⟨some 315619200, false⟩
    ∧ (315619200 : Int) ≠ 0 := by
  refine ⟨by decide, by decide, by decide⟩

/-- C5 (amended). Construction establishes the Unset→Set transition, and no
operation moves a Set instance back to Unset; but a subsequent successful
`CopyFromDateTimeString` overwrites `elapsed_seconds` with the newly computed
value, so a Set→Set transition to a different value is possible. -/
theorem fat_c5_no_unset (dt : FATDateTime) (ts : String) (dt' : FATDateTime)
    (h : dt.CopyFromDateTimeString ts = .ok dt') :
    dt'.number_of_seconds.isSome = true := by
  unfold FATDateTime.CopyFromDateTimeString at h
  split at h
  · exact Except.noConfusion h
  split at h
  · exact Except.noConfusion h
  cases Except.ok.inj h
  rfl

/-- C5 witness: the amended statement applied at a concrete overwrite. -/
theorem fat_c5_witness :
    (FATDateTime.mk (some 315619200) false).number_of_seconds.isSome = true :=
  fat_c5_no_unset ⟨some 0, false⟩ "1990-01-01" ⟨some 315619200, false⟩
    (by decide)

/-- C6. Given a string the parser accepts, `CopyFromDateTimeString` raises
an error naming the parsed year exactly when that year is below 1980 or
above 2107, and otherwise stores
`GetNumberOfSecondsFromElements(year, month, day, hours, minutes, seconds)`
minus 315532800. -/
theorem fat_c6_year_window (ts : String) (dtv : DateTimeValues)
    (dt : FATDateTime) (hp : CopyDateTimeFromString ts = .ok dtv) :
    ((∃ e, dt.CopyFromDateTimeString ts = .error e)
      ↔ (dtv.year.getD 0 < 1980 ∨ 2107 < dtv.year.getD 0))
    ∧ (dtv.year.getD 0 < 1980 ∨ 2107 < dtv.year.getD 0 →
        dt.CopyFromDateTimeString ts = .error
          ("Year value not supported: " ++ natRepr (dtv.year.getD 0) ++ "."))
    ∧ (1980 ≤ dtv.year.getD 0 → dtv.year.getD 0 ≤ 2107 →
        dt.CopyFromDateTimeString ts = .ok
          ⟨some ((GetNumberOfSecondsFromElements (dtv.year.getD 0)
              (dtv.month.getD 0) (dtv.day_of_month.getD 0) (dtv.hours.getD 0)
              (dtv.minutes.getD 0) (dtv.seconds.getD 0) : Int)
            - FAT_DATE_TO_POSIX_BASE), false⟩) := by
  have hmain : dt.CopyFromDateTimeString ts =
      if dtv.year.getD 0 < 1980 ∨ dtv.year.getD 0 > 1980 + 0x7f then
        .error ("Year value not supported: " ++ natRepr (dtv.year.getD 0) ++ ".")
      else
        .ok ⟨some ((GetNumberOfSecondsFromElements (dtv.year.getD 0)
            (dtv.month.getD 0) (dtv.day_of_month.getD 0) (dtv.hours.getD 0)
            (dtv.minutes.getD 0) (dtv.seconds.getD 0) : Int)
          - FAT_DATE_TO_POSIX_BASE), false⟩ := by
    unfold FATDateTime.CopyFromDateTimeString
    rw [hp]
  rw [hmain]
  by_cases hy : dtv.year.getD 0 < 1980 ∨ dtv.year.getD 0 > 1980 + 0x7f
  · rw [if_pos hy]
    exact ⟨⟨fun _ => by omega, fun _ => ⟨_, rfl⟩⟩, fun _ => rfl,
      fun ha hb => absurd hy (by omega)⟩
  · rw [if_neg hy]
    exact ⟨⟨fun he => Except.noConfusion he.choose_spec, fun hc => absurd hc (by omega)⟩,
      fun hc => absurd hc (by omega), fun _ _ => rfl⟩

/-- C6 witness: a below-window year is rejected naming the year, and an
in-window string is stored as elements-seconds minus the epoch offset. -/
theorem fat_c6_witness :
    FATDateTime.initUnset.CopyFromDateTimeString "1979-01-01"
      = .error ("Year value not supported: " ++ natRepr 1979 ++ ".")
    ∧ FATDateTime.initUnset.CopyFromDateTimeString "2010-06-15 12:30:45"
      = .ok ⟨some ((GetNumberOfSecondsFromElements 2010 6 15 12 30 45 : Int)
          - FAT_DATE_TO_POSIX_BASE), false⟩ :=
  ⟨(fat_c6_year_window "1979-01-01" ⟨some 1979, some 1, some 1, none, none, none⟩
      FATDateTime.initUnset (by decide)).2.1 (by decide),
    (fat_c6_year_window "2010-06-15 12:30:45"
      ⟨some 2010, some 6, some 15, some 12, some 30, some 45⟩
      FATDateTime.initUnset (by decide)).2.2 (by decide) (by decide)⟩

/-- C9. On an unset instance every readout returns its no-value sentinel:
`CopyToDateTimeString` returns none, `CopyToStatTimeTuple` the none-pair,
`GetDate` the none-triple and `GetPlasoTimestamp` none. -/
theorem fat_c9_unset_readouts :
    FATDateTime.initUnset.CopyToDateTimeString = none
    ∧ FATDateTime.initUnset.CopyToStatTimeTuple = (none, none)
    ∧ FATDateTime.initUnset.GetDate = (none, none, none)
    ∧ FATDateTime.initUnset.GetPlasoTimestamp = none :=
  ⟨rfl, rfl, rfl, rfl⟩

/-- C10. `CopyToStatTimeTuple` and `GetPlasoTimestamp` return their
sentinels under exactly the same condition, and on a non-sentinel stat tuple
with first element `s` the plaso timestamp is exactly `1000000 * s`. -/
theorem fat_c10_agreement (dt : FATDateTime) :
    (dt.CopyToStatTimeTuple = (none, none) ↔ dt.GetPlasoTimestamp = none)
    ∧ ∀ (t : Int) (r : Option Int), dt.CopyToStatTimeTuple = (some t, r) →
      dt.GetPlasoTimestamp = some (1000000 * t) := by
  obtain ⟨ns, loc⟩ := dt
  cases ns with
  | none => exact ⟨by simp [FATDateTime.CopyToStatTimeTuple,
      FATDateTime.GetPlasoTimestamp], by simp [FATDateTime.CopyToStatTimeTuple]⟩
  | some s =>
    by_cases hneg : s < 0
    · refine ⟨by simp [FATDateTime.CopyToStatTimeTuple,
        FATDateTime.GetPlasoTimestamp, hneg], ?_⟩
      intro t r h
      simp [FATDateTime.CopyToStatTimeTuple, hneg] at h
    · refine ⟨by simp [FATDateTime.CopyToStatTimeTuple,
        FATDateTime.GetPlasoTimestamp, hneg], ?_⟩
      intro t r h
      simp only [FATDateTime.CopyToStatTimeTuple, if_neg hneg] at h
      obtain ⟨h1, -⟩ := Prod.mk.injEq .. ▸ h
      cases Option.some.inj h1
      simp [FATDateTime.GetPlasoTimestamp, hneg, MICROSECONDS_PER_SECOND]

/-- C10 witness: the non-sentinel part applied at the decoded FAT epoch. -/
theorem fat_c10_witness :
    FATDateTime.GetPlasoTimestamp ⟨some 0, false⟩ = some (1000000 * 315532800) :=
  (fat_c10_agreement ⟨some 0, false⟩).2 315532800 none (by decide)


/-- Peeling the last month off a month-prefix sum. -/
theorem monthPrefix_pred (y m : Nat) (hm : 1 ≤ m) :
    monthPrefix y (m - 1) + daysInMonthT y m = monthPrefix y m := by
  cases m with
  | zero => omega
  | succ k => simp [monthPrefix]

/-- Month-prefix sums grow with the month index. -/
theorem monthPrefix_mono (y : Nat) {m n : Nat} (h : m ≤ n) :
    monthPrefix y m ≤ monthPrefix y n := by
  induction n with
  | zero => cases Nat.le_zero.mp h; exact le_refl _
  | succ k ih =>
    rcases Nat.lt_or_ge m (k + 1) with h' | h'
    · exact le_trans (ih (by omega)) (Nat.le_add_right _ _)
    · have : m = k + 1 := by omega
      cases this; exact le_refl _

/-- The twelve months of a year sum to the length of the year. -/
theorem monthPrefix_12 (y : Nat) : monthPrefix y 12 = GetNumberOfDaysInYear y := by
  cases h : isLeapYear y <;>
    simp [monthPrefix, daysInMonthT, daysPerMonthList, GetNumberOfDaysInYear, h]

/-- Every month of the Gregorian calendar has at most 31 days. -/
theorem dim_le_31 (y m : Nat) (h1 : 1 ≤ m) (h2 : m ≤ 12) :
    daysInMonthT y m ≤ 31 := by
  interval_cases m <;> cases h : isLeapYear y <;>
    simp [daysInMonthT, daysPerMonthList, h]

/-- January through November cover at most 335 days. -/
theorem monthPrefix_11_le (y : Nat) : monthPrefix y 11 ≤ 335 := by
  cases h : isLeapYear y <;>
    simp [monthPrefix, daysInMonthT, daysPerMonthList, h]

/-- A valid day of month yields a day of year within the year. -/
theorem getDayOfYear_le (y m d : Nat) (h1 : 1 ≤ m) (h2 : m ≤ 12)
    (hd : d ≤ daysInMonthT y m) :
    GetDayOfYear y m d ≤ GetNumberOfDaysInYear y := by
  have hp := monthPrefix_pred y m h1
  have hmono := monthPrefix_mono y h2
  have h12 := monthPrefix_12 y
  unfold GetDayOfYear
  omega

/-- Peeling the first year off a year-length sum. -/
theorem yearsDaysSum_shift (base n : Nat) :
    yearsDaysSum base (n + 1)
      = GetNumberOfDaysInYear base + yearsDaysSum (base + 1) n := by
  induction n with
  | zero => simp [yearsDaysSum]
  | succ k ih =>
    have h1 : yearsDaysSum base (k + 1 + 1)
        = yearsDaysSum base (k + 1) + GetNumberOfDaysInYear (base + (k + 1)) := rfl
    have h2 : yearsDaysSum (base + 1) (k + 1)
        = yearsDaysSum (base + 1) k + GetNumberOfDaysInYear (base + 1 + k) := rfl
    have h3 : base + (k + 1) = base + 1 + k := by omega
    rw [h1, h2, ih, h3]
    omega

/-- Year-length sums grow with the number of years. -/
theorem yearsDaysSum_mono (base : Nat) {m n : Nat} (h : m ≤ n) :
    yearsDaysSum base m ≤ yearsDaysSum base n := by
  induction n with
  | zero => cases Nat.le_zero.mp h; exact le_refl _
  | succ k ih =>
    rcases Nat.lt_or_ge m (k + 1) with h' | h'
    · exact le_trans (ih (by omega)) (Nat.le_add_right _ _)
    · have : m = k + 1 := by omega
      cases this; exact le_refl _

/-- Year-length sums over consecutive ranges add up. -/
theorem yearsDaysSum_split (base a b : Nat) :
    yearsDaysSum base (a + b) = yearsDaysSum base a + yearsDaysSum (base + a) b := by
  induction b with
  | zero => simp [yearsDaysSum]
  | succ k ih =>
    have h1 : yearsDaysSum base (a + (k + 1))
        = yearsDaysSum base (a + k) + GetNumberOfDaysInYear (base + (a + k)) := rfl
    have h2 : yearsDaysSum (base + a) (k + 1)
        = yearsDaysSum (base + a) k + GetNumberOfDaysInYear (base + a + k) := rfl
    have h3 : base + (a + k) = base + a + k := by omega
    rw [h1, h2, ih, h3]
    omega


/-- The year-search of the inverse day mapping: given enough fuel, it lands
on the year whose preceding years sum to at most the day count, leaving a
day index inside that year. -/
theorem yearFromDays_spec : ∀ (fuel year days : Nat),
    days < yearsDaysSum year fuel →
    (yearFromDays fuel year days).2
        < GetNumberOfDaysInYear (yearFromDays fuel year days).1
      ∧ year ≤ (yearFromDays fuel year days).1
      ∧ yearsDaysSum year ((yearFromDays fuel year days).1 - year)
          + (yearFromDays fuel year days).2 = days := by
  intro fuel
  induction fuel with
  | zero => intro year days h; simp [yearsDaysSum] at h
  | succ k ih =>
    intro year days h
    by_cases hlt : days < GetNumberOfDaysInYear year
    · simp only [yearFromDays, if_pos hlt]
      exact ⟨hlt, le_refl _, by simp [yearsDaysSum]⟩
    · simp only [yearFromDays, if_neg hlt]
      have hshift := yearsDaysSum_shift year k
      have hrec : days - GetNumberOfDaysInYear year < yearsDaysSum (year + 1) k := by
        omega
      obtain ⟨h1, h2, h3⟩ := ih (year + 1) (days - GetNumberOfDaysInYear year) hrec
      refine ⟨h1, by omega, ?_⟩
      set Y := (yearFromDays k (year + 1) (days - GetNumberOfDaysInYear year)).1 with hY
      have hYy : Y - year = (Y - (year + 1)) + 1 := by omega
      rw [hYy]
      have hsh2 := yearsDaysSum_shift year (Y - (year + 1))
      omega

/-- The month-search of the inverse day mapping: starting after month `m`
with a day index still inside the year, it lands on a valid month and day
of month whose day-of-year position restores the index. -/
theorem monthFromDayIndex_spec (y : Nat) : ∀ (fuel m idx : Nat),
    m + 1 + fuel = 12 →
    idx + monthPrefix y m < GetNumberOfDaysInYear y →
    1 ≤ (monthFromDayIndex y fuel (m + 1) idx).1
      ∧ (monthFromDayIndex y fuel (m + 1) idx).1 ≤ 12
      ∧ 1 ≤ (monthFromDayIndex y fuel (m + 1) idx).2
      ∧ (monthFromDayIndex y fuel (m + 1) idx).2
          ≤ daysInMonthT y (monthFromDayIndex y fuel (m + 1) idx).1
      ∧ monthPrefix y ((monthFromDayIndex y fuel (m + 1) idx).1 - 1)
          + ((monthFromDayIndex y fuel (m + 1) idx).2 - 1)
        = monthPrefix y m + idx := by
  intro fuel
  induction fuel with
  | zero =>
    intro m idx hm hidx
    simp only [monthFromDayIndex, Nat.add_sub_cancel]
    have h12 := monthPrefix_12 y
    have hp := monthPrefix_pred y (m + 1) (by omega)
    rw [Nat.add_sub_cancel] at hp
    have hmp : monthPrefix y (m + 1) = monthPrefix y 12 := by
      rw [show m + 1 = 12 from by omega]
    refine ⟨by omega, by omega, by omega, by omega, by trivial⟩
  | succ k ih =>
    intro m idx hm hidx
    by_cases hlt : idx < daysInMonthT y (m + 1)
    · simp only [monthFromDayIndex, if_pos hlt, Nat.add_sub_cancel]
      refine ⟨by omega, by omega, by omega, by omega, by trivial⟩
    · simp only [monthFromDayIndex, if_neg hlt]
      have hp := monthPrefix_pred y (m + 1) (by omega)
      rw [Nat.add_sub_cancel] at hp
      have hrec := ih (m + 1) (idx - daysInMonthT y (m + 1)) (by omega) (by omega)
      obtain ⟨g1, g2, g3, g4, g5⟩ := hrec
      exact ⟨g1, g2, g3, g4, by omega⟩


set_option maxRecDepth 8192 in
/-- The inverse date mapping with the 1980 epoch: for any day count inside
the 128-year window it produces a valid calendar date whose forward day
count restores the input. -/
theorem getDateValues_spec (days : Nat) (h : days < 46751) :
    1980 ≤ (GetDateValuesWithEpoch days).1
    ∧ (GetDateValuesWithEpoch days).1 ≤ 2107
    ∧ 1 ≤ (GetDateValuesWithEpoch days).2.1
    ∧ (GetDateValuesWithEpoch days).2.1 ≤ 12
    ∧ 1 ≤ (GetDateValuesWithEpoch days).2.2
    ∧ (GetDateValuesWithEpoch days).2.2
        ≤ daysInMonthT (GetDateValuesWithEpoch days).1 (GetDateValuesWithEpoch days).2.1
    ∧ yearsDaysSum 1980 ((GetDateValuesWithEpoch days).1 - 1980)
        + (GetDayOfYear (GetDateValuesWithEpoch days).1
            (GetDateValuesWithEpoch days).2.1 (GetDateValuesWithEpoch days).2.2 - 1)
      = days := by
  have h46751 : yearsDaysSum 1980 128 = 46751 := by decide
  have htot : days < yearsDaysSum 1980 128 := by omega
  obtain ⟨h1, h2, h3⟩ := yearFromDays_spec 128 1980 days htot
  have hY2107 : (yearFromDays 128 1980 days).1 ≤ 2107 := by
    by_contra hc
    have h128 : 128 ≤ (yearFromDays 128 1980 days).1 - 1980 := by omega
    have := yearsDaysSum_mono 1980 h128
    omega
  have hm := monthFromDayIndex_spec (yearFromDays 128 1980 days).1 11 0
    (yearFromDays 128 1980 days).2 (by omega)
    (by
      have hmp0 : monthPrefix (yearFromDays 128 1980 days).1 0 = 0 := rfl
      omega)
  simp only [Nat.zero_add, monthPrefix] at hm
  obtain ⟨g1, g2, g3, g4, g5⟩ := hm
  have hG : GetDateValuesWithEpoch days
      = ((yearFromDays 128 1980 days).1,
        (monthFromDayIndex (yearFromDays 128 1980 days).1 11 1
          (yearFromDays 128 1980 days).2).1,
        (monthFromDayIndex (yearFromDays 128 1980 days).1 11 1
          (yearFromDays 128 1980 days).2).2) := rfl
  simp only [hG]
  refine ⟨by omega, by omega, g1, g2, g3, g4, ?_⟩
  unfold GetDayOfYear
  omega


/-- `GetTimeValues` inverts the day/time-of-day decomposition. -/
theorem getTimeValues_eq (D h mi s : Nat) (hh : h < 24) (hmi : mi < 60) (hs : s < 60) :
    GetTimeValues (D * 86400 + ((h * 60 + mi) * 60 + s)) = (D, h, mi, s) := by
  simp only [GetTimeValues, Prod.mk.injEq]
  refine ⟨by omega, by omega, by omega, by omega⟩

/-- POSIX seconds from calendar elements, minus the FAT-epoch offset, equal
the 1980-based day count times 86400 plus the time of day. -/
theorem elements_minus_base (Y M D h mi s : Nat) (hY : 1980 ≤ Y) (hD : 1 ≤ D) :
    (GetNumberOfSecondsFromElements Y M D h mi s : Int) - FAT_DATE_TO_POSIX_BASE
      = ((yearsDaysSum 1980 (Y - 1980) + (GetDayOfYear Y M D - 1)) * 86400
          + ((h * 60 + mi) * 60 + s) : Nat) := by
  have hsplit := yearsDaysSum_split 1970 10 (Y - 1980)
  simp only [Nat.reduceAdd] at hsplit
  have h10 : yearsDaysSum 1970 10 = 3652 := by decide
  have hYr : Y - 1970 = 10 + (Y - 1980) := by omega
  have hdoy : 1 ≤ GetDayOfYear Y M D := by unfold GetDayOfYear; omega
  unfold GetNumberOfSecondsFromElements SECONDS_PER_DAY FAT_DATE_TO_POSIX_BASE
  rw [hYr, hsplit, h10]
  omega

/-- `digitVal` inverts `dChar` on single digits. -/
theorem digitVal_dChar (k : Nat) (hk : k < 10) : digitVal (dChar k) = some k := by
  interval_cases k <;> rfl

/-- Parsing a two-digit zero-padded rendering restores the number. -/
theorem parse2_digits (n : Nat) (hn : n < 100) :
    parse2 (dChar (n / 10 % 10)) (dChar (n % 10)) = some n := by
  simp only [parse2, digitVal_dChar (n / 10 % 10) (by omega),
    digitVal_dChar (n % 10) (by omega), Option.bind_eq_bind, Option.some_bind,
    pure, Option.some.injEq]
  omega

/-- Parsing a four-digit zero-padded rendering restores the number. -/
theorem parse4_digits (n : Nat) (hn : n < 10000) :
    parse4 (dChar (n / 1000 % 10)) (dChar (n / 100 % 10)) (dChar (n / 10 % 10))
      (dChar (n % 10)) = some n := by
  simp only [parse4, digitVal_dChar (n / 1000 % 10) (by omega),
    digitVal_dChar (n / 100 % 10) (by omega), digitVal_dChar (n / 10 % 10) (by omega),
    digitVal_dChar (n % 10) (by omega), Option.bind_eq_bind, Option.some_bind,
    pure, Option.some.injEq]
  omega


/-- The modelled parser inverts `formatDateTime` on every in-range
calendar sextuple. -/
theorem parse_format_roundtrip (y mo d h mi s : Nat) (hy : y < 10000)
    (hmo1 : 1 ≤ mo) (hmo2 : mo ≤ 12) (hd1 : 1 ≤ d) (hd2 : d ≤ daysInMonthT y mo)
    (hh : h < 24) (hmi : mi < 60) (hs : s < 60) :
    CopyDateTimeFromString (formatDateTime y mo d h mi s)
      = .ok ⟨some y, some mo, some d, some h, some mi, some s⟩ := by
  unfold formatDateTime pad4 pad2
  unfold CopyDateTimeFromString
  simp only [List.cons_append, List.nil_append]
  simp only [parse4_digits y hy, parse2_digits mo (by omega),
    parse2_digits d (by
      have := dim_le_31 y mo hmo1 hmo2
      omega),
    parse2_digits h (by omega), parse2_digits mi (by omega),
    parse2_digits s (by omega)]
  rw [if_pos ⟨hmo1, hmo2, hd1, hd2, hh, hmi, hs⟩]


/-- A successful `GetDaysPerMonth` means the month is in range and the
result is the month's length. -/
theorem getDaysPerMonth_ok (y m dpm : Nat) (h : GetDaysPerMonth y m = .ok dpm) :
    1 ≤ m ∧ m ≤ 12 ∧ dpm = daysInMonthT y m := by
  unfold GetDaysPerMonth at h
  split at h
  · exact Except.noConfusion h
  · rename_i hc
    exact ⟨by omega, by omega, (Except.ok.inj h).symm⟩

set_option maxRecDepth 8192 in
/-- The whole-days count computed by a successful decode never exceeds the
day count of 2107-12-31. -/
theorem codeDays_le (v dpm : Nat)
    (hdpm : GetDaysPerMonth (fatYearOffset v) (fatMonth v) = .ok dpm)
    (hd1 : 1 ≤ fatDay v) (hd2 : fatDay v ≤ dpm) :
    GetDayOfYear (1980 + fatYearOffset v) (fatMonth v) (fatDay v) - 1
      + yearsDaysSum 0 (fatYearOffset v) ≤ 46750 := by
  obtain ⟨hm1, hm2, hde⟩ := getDaysPerMonth_ok _ _ _ hdpm
  have hyo : fatYearOffset v ≤ 127 := Nat.and_le_right
  have hdim31 := dim_le_31 (fatYearOffset v) (fatMonth v) hm1 hm2
  by_cases hcase : fatYearOffset v ≤ 126
  · have hmono : yearsDaysSum 0 (fatYearOffset v) ≤ yearsDaysSum 0 126 :=
      yearsDaysSum_mono 0 hcase
    have h46021 : yearsDaysSum 0 126 = 46021 := by decide
    have hmp : monthPrefix (1980 + fatYearOffset v) (fatMonth v - 1)
        ≤ monthPrefix (1980 + fatYearOffset v) 11 :=
      monthPrefix_mono _ (by omega)
    have hmp11 := monthPrefix_11_le (1980 + fatYearOffset v)
    unfold GetDayOfYear
    omega
  · have h127 : fatYearOffset v = 127 := by omega
    have h46386 : yearsDaysSum 0 127 = 46386 := by decide
    have hleap : isLeapYear 127 = isLeapYear 2107 := by decide
    have hdimc : daysInMonthT (fatYearOffset v) (fatMonth v)
        = daysInMonthT 2107 (fatMonth v) := by
      rw [h127]; unfold daysInMonthT; rw [hleap]
    have hle : GetDayOfYear 2107 (fatMonth v) (fatDay v)
        ≤ GetNumberOfDaysInYear 2107 :=
      getDayOfYear_le 2107 (fatMonth v) (fatDay v) hm1 hm2 (by omega)
    have h2107 : GetNumberOfDaysInYear 2107 = 365 := by decide
    have hyr : 1980 + fatYearOffset v = 2107 := by omega
    rw [hyr, h127]
    omega

set_option maxRecDepth 8192 in
/-- C2. For every packed 32-bit value that decodes without an error,
rendering the instance with `CopyToDateTimeString` and constructing a fresh
instance via `CopyFromDateTimeString` on that string yields the same
elapsed seconds as the original decode. -/
theorem fat_c2_roundtrip (v : Nat) (_hv : v < 4294967296) (dt0 : FATDateTime)
    (h : FATDateTime.initPacked v = .ok dt0) :
    ∃ (str : String) (dt1 : FATDateTime),
      dt0.CopyToDateTimeString = some str
      ∧ FATDateTime.initUnset.CopyFromDateTimeString str = .ok dt1
      ∧ dt1.number_of_seconds = dt0.number_of_seconds := by
  unfold FATDateTime.initPacked at h
  split at h
  · exact Except.noConfusion h
  rename_i s hg
  cases Except.ok.inj h
  obtain ⟨dpm, hdpm, hd1, hd2, hh, hmi, hsec, hval⟩ := getNumberOfSeconds_ok v s hg
  have hdoy1 : 1 ≤ GetDayOfYear (1980 + fatYearOffset v) (fatMonth v) (fatDay v) := by
    unfold GetDayOfYear; omega
  have hDle : GetDayOfYear (1980 + fatYearOffset v) (fatMonth v) (fatDay v) - 1
      + yearsDaysSum 0 (fatYearOffset v) ≤ 46750 := codeDays_le v dpm hdpm hd1 hd2
  set D : Nat := GetDayOfYear (1980 + fatYearOffset v) (fatMonth v) (fatDay v) - 1
      + yearsDaysSum 0 (fatYearOffset v) with hD
  have hsD : s = ((D * 86400
      + ((fatHours v * 60 + fatMinutes v) * 60 + fatSecondsValue v) : Nat) : Int) := by
    rw [hval]
    have hspd : (SECONDS_PER_DAY : Int) = 86400 := rfl
    rw [hspd, hD]
    push_cast
    omega
  have hsnat : s.toNat = D * 86400
      + ((fatHours v * 60 + fatMinutes v) * 60 + fatSecondsValue v) := by omega
  have htv := getTimeValues_eq D (fatHours v) (fatMinutes v) (fatSecondsValue v) hh hmi hsec
  obtain ⟨k1, k2, k3, k4, k5, k6, k7⟩ := getDateValues_spec D (by omega)
  have hstr : FATDateTime.CopyToDateTimeString ⟨some s, false⟩
      = some (formatDateTime (GetDateValuesWithEpoch D).1
          (GetDateValuesWithEpoch D).2.1 (GetDateValuesWithEpoch D).2.2
          (fatHours v) (fatMinutes v) (fatSecondsValue v)) := by
    unfold FATDateTime.CopyToDateTimeString
    simp only [hsnat, htv]
  have hparse := parse_format_roundtrip (GetDateValuesWithEpoch D).1
    (GetDateValuesWithEpoch D).2.1 (GetDateValuesWithEpoch D).2.2
    (fatHours v) (fatMinutes v) (fatSecondsValue v)
    (by omega) k3 k4 k5 k6 hh hmi hsec
  have hcp : FATDateTime.initUnset.CopyFromDateTimeString
      (formatDateTime (GetDateValuesWithEpoch D).1 (GetDateValuesWithEpoch D).2.1
        (GetDateValuesWithEpoch D).2.2 (fatHours v) (fatMinutes v) (fatSecondsValue v))
      = .ok ⟨some ((GetNumberOfSecondsFromElements (GetDateValuesWithEpoch D).1
          (GetDateValuesWithEpoch D).2.1 (GetDateValuesWithEpoch D).2.2
          (fatHours v) (fatMinutes v) (fatSecondsValue v) : Int)
        - FAT_DATE_TO_POSIX_BASE), false⟩ := by
    unfold FATDateTime.CopyFromDateTimeString
    simp only [hparse, Option.getD_some]
    rw [if_neg (by omega)]
  refine ⟨_, _, hstr, hcp, ?_⟩
  have hfin := elements_minus_base (GetDateValuesWithEpoch D).1
    (GetDateValuesWithEpoch D).2.1 (GetDateValuesWithEpoch D).2.2
    (fatHours v) (fatMinutes v) (fatSecondsValue v) k1 k5
  simp only [hfin, k7]
  rw [hsD]


/-- C2 witness: the round trip applied to the packed FAT epoch value 33. -/
theorem fat_c2_witness :
    ∃ (str : String) (dt1 : FATDateTime),
      FATDateTime.CopyToDateTimeString ⟨some 0, false⟩ = some str
      ∧ FATDateTime.initUnset.CopyFromDateTimeString str = .ok dt1
      ∧ dt1.number_of_seconds
          = FATDateTime.number_of_seconds ⟨some 0, false⟩ :=
  fat_c2_roundtrip 33 (by decide) ⟨some 0, false⟩ (by decide)

end FatSpec
